import Mathlib

set_option autoImplicit false

/-!
Shallow embedding of the `axstudio` Langflow plugin components:

* `coe_model_picker.py` (`CoEModelPicker`): model discovery, dropdown refresh,
  chat invocation with caching;
* `tool_invoker.py` (`ToolInvokerFromSelectionMin`): URL join and the generic
  tool call with the 404 trailing-slash retry;
* `tool_picker_router.py` (`ToolPickerJsonRouterMessageOnlyV2`): dynamic key
  dropdown over an extracted JSON object.

Decoded JSON values are modelled by the inductive `Json`; Python string
operations used by the code (`strip`, `lower`, `rstrip`, `startswith`,
`replace`, slicing) are re-implemented over `List Char` so that every
definition evaluates inside the kernel.  Network and host-library effects
(`urlopen`, `requests`, Langflow toolkits, `json.loads` at the router) are
passed in as explicit oracle parameters; everything else is translated
directly from the Python source.
-/

/-- Decoded JSON value (result of `json.loads` / argument of `json.dumps`).
Numbers are modelled as integers: no fractional literal appears anywhere in
the repository's payloads or in the properties below. -/
inductive Json where
  | null
  | bool (b : Bool)
  | num (n : Int)
  | str (s : String)
  | arr (elems : List Json)
  | obj (fields : List (String × Json))

/-- Python truthiness (`bool(x)`) on decoded JSON values. -/
def pyTruthy : Json → Bool
  | .null => false
  | .bool b => b
  | .num n => n != 0
  | .str s => s != ""
  | .arr xs => !xs.isEmpty
  | .obj kvs => !kvs.isEmpty

/-- `a or b` on decoded values: `a` when truthy, else `b`. -/
def pyOrJ (a b : Json) : Json := if pyTruthy a then a else b

/-- `a or b` on Python strings. -/
def pyOrS (a b : String) : String := if a = "" then b else a

/-- Last-occurrence association lookup: the value a Python `dict` built from
the given pairs holds for key `k` (later pairs overwrite earlier ones). -/
def dictLookup (kvs : List (String × Json)) (k : String) : Option Json :=
  (kvs.filter (fun kv => kv.1 = k)).getLast?.map (fun kv => kv.2)

/-- `d.get(k)` on a decoded JSON object: `None` (`Json.null`) when absent. -/
def dictGet (kvs : List (String × Json)) (k : String) : Json :=
  (dictLookup kvs k).getD Json.null

/-- Last-occurrence lookup for string-valued dicts (the picker's
`_name_to_id` mapping, built by a dict comprehension). -/
def sdictLookup (kvs : List (String × String)) (k : String) : Option String :=
  (kvs.filter (fun kv => kv.1 = k)).getLast?.map (fun kv => kv.2)

/-- `d.get(k, default)` for string-valued dicts. -/
def sdictGet (kvs : List (String × String)) (k : String) (dflt : String) : String :=
  (sdictLookup kvs k).getD dflt

/-- Deduplication keeping the first occurrence of each element, in order, by
structural recursion on a fuel the caller sets to the input length (each step
consumes at least one element, so that fuel always suffices). -/
def dedupFuel : Nat → List String → List String
  | 0, _ => []
  | _ + 1, [] => []
  | f + 1, a :: l => a :: dedupFuel f (l.filter (fun b => b ≠ a))

/-- `list(d.keys())` for a dict built from the given pairs: first-occurrence
order, duplicates collapsed. -/
def dictKeys (kvs : List (String × String)) : List String :=
  dedupFuel (kvs.map Prod.fst).length (kvs.map Prod.fst)

/-- ASCII lower-casing of one character (`str.lower` restricted to the ASCII
range, which is all the code's inputs use). -/
def charLower (c : Char) : Char :=
  if 65 ≤ c.toNat ∧ c.toNat ≤ 90 then Char.ofNat (c.toNat + 32) else c

/-- Python `s.lower()`. -/
def pyLower (s : String) : String := ⟨s.data.map charLower⟩

/-- The whitespace characters stripped by Python `str.strip()` (ASCII set). -/
def pySpace (c : Char) : Bool :=
  c = ' ' ∨ c = '\t' ∨ c = '\n' ∨ c = '\r' ∨ c = '\x0b' ∨ c = '\x0c'

/-- Python `s.strip()`. -/
def pyStrip (s : String) : String :=
  ⟨((s.data.dropWhile pySpace).reverse.dropWhile pySpace).reverse⟩

/-- Python `s.rstrip("/")`. -/
def rstripSlash (s : String) : String :=
  ⟨(s.data.reverse.dropWhile (fun c => c = '/')).reverse⟩

/-- Python `s.startswith(p)`. -/
def pyStartsWith (s p : String) : Bool := p.data.isPrefixOf s.data

/-- Python `s.endswith(p)`. -/
def pyEndsWith (s p : String) : Bool := p.data.isSuffixOf s.data

/-- First position (if any) where `p` occurs in `l`; helper for Python's
substring containment test. -/
def infixPos (l p : List Char) : Option Nat :=
  (List.range (l.length + 1)).find? (fun i => p.isPrefixOf (l.drop i))

/-- Python `p in s` (substring containment). -/
def pyContains (s p : String) : Bool := (infixPos s.data p.data).isSome

/-- Python `s[:n]` (slice by code points). -/
def pySlice (s : String) (n : Nat) : String := ⟨s.data.take n⟩

/-- Replace all non-overlapping occurrences of the non-empty pattern `pat`
left to right, by structural recursion on a fuel that the caller sets to the
input length (each step consumes at least one character, so that fuel always
suffices). -/
def replaceFuel (pat rep : List Char) : Nat → List Char → List Char
  | 0, l => l
  | _ + 1, [] => []
  | f + 1, c :: rest =>
    if pat.isPrefixOf (c :: rest) ∧ pat ≠ [] then
      rep ++ replaceFuel pat rep f (rest.drop (pat.length - 1))
    else
      c :: replaceFuel pat rep f rest

/-- Python `s.replace(old, new)` for a non-empty pattern. -/
def pyReplace (s pat rep : String) : String :=
  ⟨replaceFuel pat.data rep.data s.data.length s.data⟩

/-- Boolean code-point lexicographic order on character lists; this is how
Python compares two strings with `<=`. -/
def lexLe : List Char → List Char → Bool
  | [], _ => true
  | _ :: _, [] => false
  | a :: as, b :: bs =>
    if a.toNat < b.toNat then true
    else if b.toNat < a.toNat then false
    else lexLe as bs

/-- Escape one character inside a double-quoted JSON string as
`json.dumps` (with `ensure_ascii=False`) renders it.  Control characters
other than the three escapes below would be rendered as `\uXXXX` by Python;
no such character appears in any payload handled here. -/
def jsonEscChar (c : Char) : List Char :=
  if c = '"' then ['\\', '"']
  else if c = '\\' then ['\\', '\\']
  else if c = '\n' then ['\\', 'n']
  else if c = '\t' then ['\\', 't']
  else if c = '\r' then ['\\', 'r']
  else [c]

/-- A JSON string literal as `json.dumps(..., ensure_ascii=False)` prints it. -/
def jsonQuote (s : String) : String :=
  ⟨'"' :: (s.data.flatMap jsonEscChar ++ ['"'])⟩

/-- Python `repr` of a string: single quotes unless the string contains a
single quote and no double quote; backslash, the chosen quote and the three
common control characters escaped. -/
def pyReprStr (s : String) : String :=
  let q : Char := if s.data.contains '\'' ∧ ¬ s.data.contains '"' then '"' else '\''
  let esc : Char → List Char := fun c =>
    if c = q then ['\\', q]
    else if c = '\\' then ['\\', '\\']
    else if c = '\n' then ['\\', 'n']
    else if c = '\t' then ['\\', 't']
    else if c = '\r' then ['\\', 'r']
    else [c]
  ⟨q :: (s.data.flatMap esc ++ [q])⟩

mutual

/-- Python `repr` of a decoded JSON value (what `str(x)` produces for lists
and dicts). -/
def pyRepr : Json → String
  | .null => "None"
  | .bool true => "True"
  | .bool false => "False"
  | .num n => toString n
  | .str s => pyReprStr s
  | .arr xs => "[" ++ pyReprList xs ++ "]"
  | .obj kvs => "\x7b" ++ pyReprFields kvs ++ "\x7d"

def pyReprList : List Json → String
  | [] => ""
  | [x] => pyRepr x
  | x :: y :: xs => pyRepr x ++ ", " ++ pyReprList (y :: xs)

def pyReprFields : List (String × Json) → String
  | [] => ""
  | [kv] => pyReprStr kv.1 ++ ": " ++ pyRepr kv.2
  | kv :: kv2 :: kvs => pyReprStr kv.1 ++ ": " ++ pyRepr kv.2 ++ ", " ++ pyReprFields (kv2 :: kvs)

end

/-- Python `str(x)` on a decoded JSON value. -/
def pyStrJ : Json → String
  | .null => "None"
  | .bool true => "True"
  | .bool false => "False"
  | .num n => toString n
  | .str s => s
  | .arr xs => pyRepr (.arr xs)
  | .obj kvs => pyRepr (.obj kvs)

mutual

/-- `json.dumps(x, ensure_ascii=False)` with the default separators
`(", ", ": ")` and no indentation. -/
def dumpsC : Json → String
  | .null => "null"
  | .bool true => "true"
  | .bool false => "false"
  | .num n => toString n
  | .str s => jsonQuote s
  | .arr xs => "[" ++ dumpsCList xs ++ "]"
  | .obj kvs => "\x7b" ++ dumpsCFields kvs ++ "\x7d"

def dumpsCList : List Json → String
  | [] => ""
  | [x] => dumpsC x
  | x :: y :: xs => dumpsC x ++ ", " ++ dumpsCList (y :: xs)

def dumpsCFields : List (String × Json) → String
  | [] => ""
  | [kv] => jsonQuote kv.1 ++ ": " ++ dumpsC kv.2
  | kv :: kv2 :: kvs => jsonQuote kv.1 ++ ": " ++ dumpsC kv.2 ++ ", " ++ dumpsCFields (kv2 :: kvs)

end

/-- `n` spaces. -/
def spaces (n : Nat) : String := ⟨List.replicate n ' '⟩

mutual

/-- `json.dumps(x, ensure_ascii=False, indent=2)`, rendered at enclosing
indentation `ind` (item separator `",\n"`, key separator `": "`, empty
containers inline). -/
def dumps2 (ind : Nat) : Json → String
  | .null => "null"
  | .bool true => "true"
  | .bool false => "false"
  | .num n => toString n
  | .str s => jsonQuote s
  | .arr [] => "[]"
  | .arr (x :: xs) =>
    "[\n" ++ String.intercalate ",\n" (dumps2Items (ind + 2) (x :: xs)) ++ "\n" ++ spaces ind ++ "]"
  | .obj [] => "\x7b\x7d"
  | .obj (kv :: kvs) =>
    "\x7b\n" ++ String.intercalate ",\n" (dumps2Fields (ind + 2) (kv :: kvs)) ++ "\n" ++ spaces ind ++ "\x7d"
termination_by j => sizeOf j

def dumps2Items (ind : Nat) : List Json → List String
  | [] => []
  | x :: xs => (spaces ind ++ dumps2 ind x) :: dumps2Items ind xs
termination_by l => sizeOf l

def dumps2Fields (ind : Nat) : List (String × Json) → List String
  | [] => []
  | kv :: kvs => (spaces ind ++ jsonQuote kv.1 ++ ": " ++ dumps2 ind kv.2) :: dumps2Fields ind kvs
termination_by l => sizeOf l
decreasing_by
  all_goals obtain ⟨k, v⟩ := kv
  all_goals simp
  all_goals omega

end

/-- Python exception classes observed by the components.  CPython's
`urllib.error.HTTPError` (raised by `urlopen` on any non-2xx HTTP status) is
a subclass of `urllib.error.URLError`, and `socket.gaierror` is a subclass
of `OSError`; `caughtByNetHandler` below encodes which classes the
`except (URLError, OSError, socket.gaierror)` handlers of
`coe_model_picker.py` match. -/
inductive PyErr where
  | httpError (status : Nat)
  | urlError
  | osError
  | gaierror
  | valueError
  | attributeError
  | indexError
  | keyError
  | typeError
deriving DecidableEq

/-- Whether `except (URLError, OSError, socket.gaierror)` catches the given
exception.  `httpError` is caught because `HTTPError` subclasses `URLError`
in CPython. -/
def caughtByNetHandler : PyErr → Bool
  | .httpError _ => true
  | .urlError => true
  | .osError => true
  | .gaierror => true
  | _ => false

namespace CoEModelPicker

/-- `DEFAULT_BACKEND` as computed with no `COE_BACKEND_URL` environment
override: `"http://host.docker.internal:8000".strip().rstrip("/")`, which is
the literal itself. -/
def DEFAULT_BACKEND : String := "http://host.docker.internal:8000"

/-- `ALLOWED_OWNERS = {"openai", "sktax"}`. -/
def ALLOWED_OWNERS : List String := ["openai", "sktax"]

/-- `CoEModelPicker._normalize`. -/
def normalize (base : String) (force_https : Bool) : String :=
  let b := pyStrip (pyOrS base DEFAULT_BACKEND)
  let b := if force_https ∧ pyStartsWith b "http://" then "https://" ++ (⟨b.data.drop 7⟩ : String) else b
  rstripSlash b

/-- `CoEModelPicker._linux_fallback`. -/
def linux_fallback (base : String) : String :=
  if pyContains base "host.docker.internal" then
    pyReplace base "host.docker.internal" "172.17.0.1"
  else base

/-- `CoEModelPicker._fallback_pairs`. -/
def fallback_pairs : List (String × String) :=
  [("GPT-4o Mini", "gpt-4o-mini"),
   ("GPT-4o", "gpt-4o"),
   ("text-embedding-3-small", "text-embedding-3-small"),
   ("AX4 Model", "ax4")]

/-- `x.get(k)` where `x` must be a dict (`AttributeError` otherwise). -/
def pyGetAttr (j : Json) (k : String) : Except PyErr Json :=
  match j with
  | .obj kvs => .ok (dictGet kvs k)
  | _ => .error .attributeError

/-- `x[0]` on a decoded value: head of a list, first character of a string;
`IndexError` when empty, `KeyError` on a dict (integer key `0` is absent from
every string-keyed object), `TypeError` otherwise. -/
def pySubscript0 : Json → Except PyErr Json
  | .arr (x :: _) => .ok x
  | .arr [] => .error .indexError
  | .str s =>
    match s.data with
    | c :: _ => .ok (.str ⟨[c]⟩)
    | [] => .error .indexError
  | .obj _ => .error .keyError
  | _ => .error .typeError

/-- `for item in data`: the sequence Python iterates over (`TypeError` for
non-iterables; a dict yields its keys, a string its characters). -/
def pyIterate : Json → Except PyErr (List Json)
  | .arr xs => .ok xs
  | .obj kvs => .ok (kvs.map (fun kv => Json.str kv.1))
  | .str s => .ok (s.data.map (fun c => Json.str ⟨[c]⟩))
  | _ => .error .typeError

/-- One iteration of the `for item in data` loop body of `_fetch_models`
(lines 215-224): `None` when the item is skipped, otherwise the appended
`(name, id)` pair. -/
def item_to_pair (item : Json) : Option (String × String) :=
  match item with
  | .obj kvs =>
    let owner := pyLower (pyStrip (pyStrJ (pyOrJ (dictGet kvs "owned_by") (.str ""))))
    if owner ∈ ALLOWED_OWNERS then
      let mid := pyStrip (pyStrJ (pyOrJ (dictGet kvs "id") (.str "")))
      let name := pyStrip (pyStrJ (pyOrJ (dictGet kvs "name") (.str mid)))
      if mid ≠ "" ∧ name ≠ "" then some (name, mid) else none
    else none
  | _ => none

/-- The comparison `pairs.sort(key=lambda x: x[0].lower())` sorts by:
code-point order of the lower-cased display names. -/
def keyLe (a b : String × String) : Prop :=
  lexLe (pyLower a.1).data (pyLower b.1).data = true

instance : DecidableRel keyLe := fun _ _ => instDecidableEqBool _ _

/-- Line 213 of `_fetch_models` followed by the loop header: the sequence of
items the `for item in data` loop visits, where
`data = (payload.get("result") or {}).get("data") or payload.get("data") or []`. -/
def discovery_items (payload : Json) : Except PyErr (List Json) := do
  let result ← pyGetAttr payload "result"
  let d1 ← pyGetAttr (pyOrJ result (Json.obj [])) "data"
  let d2 ← pyGetAttr payload "data"
  pyIterate (pyOrJ d1 (pyOrJ d2 (Json.arr [])))

/-- `_fetch_models` after the discovery payload has been obtained
(lines 213-226): extract `data`, filter and coerce the items, sort stably by
lower-cased name.  Python's `list.sort` is stable, as is insertion sort, and
stable sorts by the same total preorder agree, so the resulting list is the
one the source produces. -/
def fetch_pairs (payload : Json) : Except PyErr (List (String × String)) := do
  let items ← discovery_items payload
  pure (List.insertionSort keyLe (items.filterMap item_to_pair))

/-- `CoEModelPicker._fetch_models` with the network modelled as an oracle
`netGet` from URL to decoded response or raised exception.  Returns the
result (the pair list, or the exception surfaced to the caller) together
with the list of URLs requested, in order. -/
def fetch_models (netGet : String → Except PyErr Json) (base_url : String) :
    Except PyErr (List (String × String)) × List String :=
  let url := base_url ++ "/v1/models"
  match netGet url with
  | .ok payload => (fetch_pairs payload, [url])
  | .error e =>
    if caughtByNetHandler e then
      let fburl := linux_fallback base_url ++ "/v1/models"
      match netGet fburl with
      | .ok payload => (fetch_pairs payload, [url, fburl])
      | .error e2 => (.error e2, [url, fburl])
    else (.error e, [url])

/-- The instance attributes of `CoEModelPicker` mutated at runtime. -/
structure PickerState where
  name_to_id : List (String × String)
  did_initial_fetch : Bool
  last_text : Option String

/-- The slice of the host's `build_config` dictionary that
`update_build_config` reads and writes. -/
structure PickerCfg where
  backend_url_value : String
  force_https_value : Bool
  model_options : List String
  model_value : String
  refresh_now_value : Bool

/-- The `field_name`/`field_value` argument pair of `update_build_config`,
typed by field. -/
inductive FieldUpdate where
  | backendUrl (v : String)
  | forceHttps (v : Bool)
  | refreshNow
  | otherField
  | noField

/-- `field_name in {"backend_url", "force_https", "refresh_now"}`. -/
def isRefreshField : FieldUpdate → Bool
  | .backendUrl _ => true
  | .forceHttps _ => true
  | .refreshNow => true
  | _ => false

/-- The `should_refresh` condition of `update_build_config` (lines 244-249). -/
def shouldRefresh (st : PickerState) (cfg : PickerCfg) (fu : FieldUpdate) : Bool :=
  !st.did_initial_fetch || isRefreshField fu || cfg.model_options.isEmpty
    || (cfg.model_value == "(click Refresh models now)")

/-- Lines 231-238 of `update_build_config`: the normalized base URL the
refresh targets, after folding in the field change being applied. -/
def effective_base (cfg : PickerCfg) (fu : FieldUpdate) : String :=
  normalize (match fu with | .backendUrl v => v | _ => cfg.backend_url_value)
            (match fu with | .forceHttps v => v | _ => cfg.force_https_value)

/-- `CoEModelPicker.update_build_config` (lines 230-287), with the composite
discovery call `self._fetch_models(base)` supplied as an oracle from the
normalized base URL to its outcome (the surrounding `except Exception`
catches every exception class).  `names.headD ""` stands for `names[0]`,
which the source only evaluates on the provably non-empty `names` of each
branch. -/
def update_build_config (fetch : String → Except PyErr (List (String × String)))
    (st : PickerState) (cfg : PickerCfg) (fu : FieldUpdate) : PickerCfg × PickerState :=
  let base := effective_base cfg fu
  let current_value := cfg.model_value
  if shouldRefresh st cfg fu then
    let (names, st') :=
      match fetch base with
      | .ok pairs =>
        if !pairs.isEmpty then
          (dictKeys pairs, { st with name_to_id := pairs, did_initial_fetch := true })
        else
          (fallback_pairs.map Prod.fst,
           { st with name_to_id := fallback_pairs, did_initial_fetch := true })
      | .error _ =>
        (fallback_pairs.map Prod.fst,
         { st with name_to_id := fallback_pairs, did_initial_fetch := true })
    let value := if current_value = "" ∨ ¬ names.contains current_value then names.headD ""
                 else current_value
    ({ cfg with model_options := names, model_value := value, refresh_now_value := false }, st')
  else (cfg, st)

/-- The inputs of `_call_chat`, as collected by `_collect_inputs` (which
strips `prompt`, `model_name` and `backend_url` before passing them in). -/
structure ChatInputs where
  chat_input : String
  prompt : String
  model_name : String
  backend_url : String
  force_https : Bool
  enable_tools : Bool
  tool_choice_auto : Bool

/-- The `model` field of the invocation payload (lines 382-397):
`_name_to_id.get(model_name or "", "")`, replaced by the first fallback
identifier when empty, then `model_id or (model_name or "")`. -/
def chat_model_field (name_to_id : List (String × String)) (model_name : String) : String :=
  let model_id := sdictGet name_to_id (pyOrS model_name "") ""
  let model_id :=
    if model_id = "" then
      match fallback_pairs with
      | [] => model_id
      | p :: _ => p.2
    else model_id
  pyOrS model_id (pyOrS model_name "")

/-- The `messages` array of the invocation payload (lines 392-395). -/
def chat_messages (chat_input prompt : String) : List Json :=
  (if prompt ≠ "" then [Json.obj [("role", .str "system"), ("content", .str prompt)]] else [])
    ++ [Json.obj [("role", .str "user"), ("content", .str (pyOrS chat_input ""))]]

/-- The full request body POSTed by `_call_chat` (lines 397-405), with the
serialized tool descriptors (`_build_tools_payload()`, which depends on the
host toolkit) supplied as a parameter. -/
def chat_payload (name_to_id : List (String × String)) (inp : ChatInputs)
    (tools_payload : List Json) : Json :=
  let base_fields : List (String × Json) :=
    [("model", .str (chat_model_field name_to_id inp.model_name)),
     ("messages", .arr (chat_messages inp.chat_input inp.prompt))]
  if inp.enable_tools ∧ !tools_payload.isEmpty then
    if inp.tool_choice_auto then
      .obj (base_fields ++ [("tools", .arr tools_payload), ("tool_choice", .str "auto")])
    else
      .obj (base_fields ++ [("tools", .arr tools_payload)])
  else .obj base_fields

/-- The response-parsing `try` block of `_call_chat` (lines 418-425):
`(resp.get("choices") or [])[0]`, then `.get("message") or {}`, then
`.get("content") or ""`, then `str(...)`. -/
def chat_text_attempt (resp : Json) : Except PyErr String :=
  match pyGetAttr resp "choices" with
  | .error e => .error e
  | .ok choices =>
    match pySubscript0 (pyOrJ choices (Json.arr [])) with
    | .error e => .error e
    | .ok choice0 =>
      match pyGetAttr choice0 "message" with
      | .error e => .error e
      | .ok msgRaw =>
        match pyGetAttr (pyOrJ msgRaw (Json.obj [])) "content" with
        | .error e => .error e
        | .ok contentRaw => .ok (pyStrJ (pyOrJ contentRaw (Json.str "")))

/-- The text `_call_chat` derives from a decoded response (lines 418-428):
the parsed content, or on any exception the raw response re-serialized and
truncated to 2000 characters. -/
def chat_text (resp : Json) : String :=
  match chat_text_attempt resp with
  | .ok t => t
  | .error _ => pySlice (dumpsC resp) 2000

/-- Line 388 of `_call_chat`: the normalized base URL of the POST. -/
def chat_base (inp : ChatInputs) : String :=
  normalize (pyOrS inp.backend_url DEFAULT_BACKEND) inp.force_https

/-- Line 389 of `_call_chat`: the primary invocation URL. -/
def chat_url (inp : ChatInputs) : String := chat_base inp ++ "/v1/chat/completions"

/-- `CoEModelPicker._call_chat` (lines 369-428) with the POST modelled as an
oracle from URL and request body to outcome.  Returns the produced text (or
the exception surfaced to the caller), the updated instance state, and the
list of `(url, body)` requests issued, in order. -/
def call_chat (net : String → Json → Except PyErr Json) (tools_payload : List Json)
    (st : PickerState) (inp : ChatInputs) :
    Except PyErr String × PickerState × List (String × Json) :=
  match st.last_text with
  | some t => (.ok t, st, [])
  | none =>
    let base := chat_base inp
    let url := chat_url inp
    let fb := linux_fallback base
    let payload := chat_payload st.name_to_id inp tools_payload
    match net url payload with
    | .ok resp =>
      let text := chat_text resp
      (.ok text, { st with last_text := some text }, [(url, payload)])
    | .error e =>
      if caughtByNetHandler e then
        if base ≠ fb then
          match net (fb ++ "/v1/chat/completions") payload with
          | .ok resp =>
            let text := chat_text resp
            (.ok text, { st with last_text := some text },
             [(url, payload), (fb ++ "/v1/chat/completions", payload)])
          | .error e2 => (.error e2, st, [(url, payload), (fb ++ "/v1/chat/completions", payload)])
        else (.error e, st, [(url, payload)])
      else (.error e, st, [(url, payload)])

/-- `CoEModelPicker.get_model_id` (lines 463-465): look the stripped
`model_name` attribute up in `_name_to_id`, defaulting to `""`. -/
def get_model_id (st : PickerState) (model_name_attr : String) : String :=
  let name := pyStrip (pyOrS model_name_attr "")
  sdictGet st.name_to_id name ""

end CoEModelPicker

namespace ToolInvoker

/-- `ToolInvokerFromSelectionMin._join_url` (lines 84-94).  `dpfx` is the
`default_prefix` parameter, `"/tools"` at the one call site. -/
def join_url (base path : String) (dpfx : String) : String :=
  let b := rstripSlash (pyOrS base "")
  let p := pyStrip (pyOrS path "/")
  let p := if !pyStartsWith p "/" then "/" ++ p else p
  let final_path :=
    if pyStartsWith p "/tools/" ∨ p = "/tools" then p
    else if !pyStartsWith p (rstripSlash dpfx ++ "/") then rstripSlash dpfx ++ p
    else p
  b ++ final_path

/-- Outcome of one `requests` call in `_invoke_core`: a response carrying an
HTTP status, a decoded JSON body when `resp.json()` succeeds (`none` models
it raising), the raw `resp.text`, and the string `requests` renders for the
`HTTPError` raised by `raise_for_status`; or a non-HTTP exception (connection
failure, timeout) with its `str(e)` rendering. -/
inductive HttpOutcome where
  | resp (status : Nat) (body : Option Json) (text : String) (errStr : String)
  | raised (msg : String)

/-- The success text of `_invoke_core` (lines 236-248 and 256-274): the
request description plus the decoded body, or `response_text` when
`resp.json()` raised; `fallback: "trailing-slash"` is added on the retry. -/
def successText (method url tool : String) (fallback : Bool) (body : Option Json)
    (rawText : String) : String :=
  let req : List (String × Json) :=
    [("method", .str method), ("url", .str url), ("tool", .str tool)]
      ++ (if fallback then [("fallback", .str "trailing-slash")] else [])
  match body with
  | some b => dumps2 0 (.obj [("request", .obj req), ("response", b)])
  | none => dumps2 0 (.obj [("request", .obj req), ("response_text", .str rawText)])

/-- The error text for the 404 path whose trailing-slash retry also failed
(lines 277-286). -/
def fallbackFailedText (method url url2 : String) (status : Nat) (secondErr : String) : String :=
  dumps2 0 (.obj
    [("error", .str "HTTP 404 and trailing-slash fallback failed"),
     ("first_try", .obj [("method", .str method), ("url", .str url), ("status", .num status)]),
     ("second_try", .obj [("url", .str url2), ("error", .str secondErr)])])

/-- The structured payload for a non-retried HTTP error (lines 288-299). -/
def httpErrorText (method url tool : String) (status : Nat) (detail bodyPreview : String) : String :=
  dumps2 0 (.obj
    [("error", .str "http_error"),
     ("status", .num status),
     ("request", .obj [("method", .str method), ("url", .str url), ("tool", .str tool)]),
     ("detail", .str detail),
     ("body_preview", .str bodyPreview)])

/-- The structured payload for a non-HTTP exception (lines 300-306). -/
def requestFailedText (method url tool : String) (detail : String) : String :=
  dumps2 0 (.obj
    [("error", .str "request_failed"),
     ("request", .obj [("method", .str method), ("url", .str url), ("tool", .str tool)]),
     ("detail", .str detail)])

/-- The call-and-retry section of `_invoke_core` (lines 232-306), after the
URL has been joined and the payload built.  `call` is the oracle giving the
outcome of the `i`-th `self._call` issued (0-based).  Returns the output
text and the list of URLs actually requested, in order. -/
def invoke_call (call : Nat → HttpOutcome) (method url tool : String) : String × List String :=
  match call 0 with
  | .raised msg => (requestFailedText method url tool msg, [url])
  | .resp status body text errStr =>
    if status < 400 then
      (successText method url tool false body text, [url])
    else if status = 404 ∧ !pyEndsWith url "/" then
      let url2 := url ++ "/"
      match call 1 with
      | .raised msg2 => (fallbackFailedText method url url2 status msg2, [url, url2])
      | .resp status2 body2 text2 errStr2 =>
        if status2 < 400 then
          (successText method url2 tool true body2 text2, [url, url2])
        else
          (fallbackFailedText method url url2 status errStr2, [url, url2])
    else
      (httpErrorText method url tool status errStr text, [url])

end ToolInvoker

namespace ToolRouter

/-- A candidate value for the router's `tool_message` build-config slot:
Python `None`, a raw string, or a (possibly Message-serialized) dict whose
values are decoded JSON. -/
inductive Cand where
  | cnone
  | cstr (s : String)
  | cdict (kvs : List (String × Json))

/-- `ToolPickerJsonRouterMessageOnlyV2._extract_json_keys_from_candidate`
(lines 159-192).  `loads` is the standard-library `json.loads`, passed in as
an oracle (`.error` models it raising). -/
def extract_json_keys (loads : String → Except Unit Json) : Cand → List String
  | .cnone => []
  | .cstr s =>
    if pyStrip s ≠ "" then
      match loads s with
      | .ok (.obj o) => o.map Prod.fst
      | .ok _ => []
      | .error _ => ["value"]
    else []
  | .cdict kvs =>
    let txt := dictGet kvs "text"
    let data := dictGet kvs "data"
    match txt with
    | .str s =>
      if pyStrip s ≠ "" then
        match loads s with
        | .ok (.obj o) => o.map Prod.fst
        | .ok _ =>
          match data with
          | .obj d => d.map Prod.fst
          | _ => kvs.map Prod.fst
        | .error _ => ["value"]
      else
        match data with
        | .obj d => d.map Prod.fst
        | _ => kvs.map Prod.fst
    | _ =>
      match data with
      | .obj d => d.map Prod.fst
      | _ => kvs.map Prod.fst

/-- The fixed fallback key list of `update_build_config` (line 100). -/
def fallback_keys : List String := ["name", "url_path", "description", "base_url"]

/-- The slice of the router's `build_config` that `update_build_config`
reads and writes. -/
structure RouterCfg where
  tool_message_value : Cand
  key_options : List String
  key_value : String

/-- `ToolPickerJsonRouterMessageOnlyV2.update_build_config` (lines 84-119).
`field_value` is the incoming value when `field_name = "tool_message"`. -/
def update_build_config (loads : String → Except Unit Json) (cfg : RouterCfg)
    (field_value : Cand) (field_name : Option String) : RouterCfg :=
  let candidate :=
    match (if field_name = some "tool_message" then field_value else Cand.cnone) with
    | .cnone => cfg.tool_message_value
    | fv => fv
  let keys := extract_json_keys loads candidate
  let keys := if keys.isEmpty then fallback_keys else keys
  let current_value := cfg.key_value
  let default_value := if keys.contains "name" then "name" else keys.headD ""
  let value :=
    if current_value = "" ∨ ¬ keys.contains current_value then default_value
    else current_value
  { cfg with key_options := keys, key_value := value }

end ToolRouter

/-! Definitions written from the claims' words (for comparison with the
translated code), and the concrete inputs the claim theorems, witnesses and
counterexamples below are evaluated at. -/

/-- Claim C1's filter predicate, following the spec's words: the item's
`owned_by` field, lowercased and trimmed, is in the allow-list. -/
def owner_allowed (item : Json) : Bool :=
  match item with
  | .obj kvs =>
    CoEModelPicker.ALLOWED_OWNERS.contains
      (pyLower (pyStrip (pyStrJ (pyOrJ (dictGet kvs "owned_by") (.str "")))))
  | _ => false

/-- Claim C6's extraction path, following the spec's words: the value at
`choices[0].message.content`, when every step of that path exists. -/
def spec_message_fields (resp : Json) : Option (List (String × Json)) :=
  match resp with
  | .obj kvs =>
    match dictLookup kvs "choices" with
    | some (.arr (Json.obj ckvs :: _)) =>
      match dictLookup ckvs "message" with
      | some (.obj mkvs) => some mkvs
      | _ => none
    | _ => none
  | _ => none

def spec_content_path (resp : Json) : Option Json :=
  (spec_message_fields resp).bind (fun mkvs => dictLookup mkvs "content")

/-- C1 counterexample payload: two allowed items sharing the display name
`"x"`, and one allowed item whose `id` is empty. -/
def c1Items : List Json :=
  [Json.obj [("owned_by", .str "openai"), ("id", .str "a"), ("name", .str "x")],
   Json.obj [("owned_by", .str "openai"), ("id", .str "b"), ("name", .str "x")],
   Json.obj [("owned_by", .str "openai"), ("id", .str ""), ("name", .str "y")]]

def c1Payload : Json := .obj [("data", .arr c1Items)]

/-- C1 witness payload: mixed owners, case/whitespace noise, a missing
`name` falling back to the `id`. -/
def w1Items : List Json :=
  [Json.obj [("owned_by", .str " OpenAI "), ("id", .str "b2")],
   Json.obj [("owned_by", .str "sktax"), ("id", .str "A1"), ("name", .str "Zed")],
   Json.obj [("owned_by", .str "meta"), ("id", .str "m"), ("name", .str "q")]]

def w1Payload : Json := .obj [("data", .arr w1Items)]

/-- C2 counterexample discovery oracle: HTTP 500 on the primary URL, a
well-formed empty payload on the host-substituted URL. -/
def c2NetGet : String → Except PyErr Json := fun u =>
  if u = "http://host.docker.internal:8000/v1/models" then .error (.httpError 500)
  else .ok (.obj [])

/-- C2 counterexample invocation oracle: transport failure on every POST. -/
def c2NetPost : String → Json → Except PyErr Json := fun _ _ => .error .osError

/-- A fresh picker instance: empty map, no initial fetch, no cached text. -/
def freshState : CoEModelPicker.PickerState := ⟨[], false, none⟩

/-- C2 counterexample invocation inputs: a base URL without the
`host.docker.internal` token, so host substitution leaves it unchanged. -/
def c2Inp : CoEModelPicker.ChatInputs := ⟨"", "", "", "http://h", false, false, false⟩

/-- C3 witness oracle: every POST answers with a well-formed completion. -/
def w3Net : String → Json → Except PyErr Json := fun _ _ =>
  .ok (.obj [("choices", .arr [Json.obj [("message", .obj [("content", .str "hi")])]])])

def w3Inp : CoEModelPicker.ChatInputs := ⟨"q", "", "m", "http://h", false, false, false⟩

/-- C4 witness configuration: refresh forced by an empty option list. -/
def w4Cfg : CoEModelPicker.PickerCfg := ⟨"http://h", false, [], "", false⟩

/-- C5 witness inputs: label `"A"` selected. -/
def w5Inp : CoEModelPicker.ChatInputs := ⟨"hi", "sys", "A", "http://h", false, true, true⟩

/-- C6 counterexample response: `choices[0].message` exists but holds no
`content` key. -/
def c6Resp : Json := .obj [("choices", .arr [Json.obj [("message", .obj [])]])]

/-- C6 witness response: a complete `choices[0].message.content` path. -/
def w6Resp : Json :=
  .obj [("id", .str "r1"),
        ("choices", .arr [Json.obj [("message", .obj [("role", .str "assistant"), ("content", .str "hello")])]])]

/-- C7 counterexample oracle: HTTP 404 on every call. -/
def c7Call : Nat → ToolInvoker.HttpOutcome := fun _ => .resp 404 none "nf" "404 Client Error"

/-- C7 witness oracle: HTTP 404 first, success with a JSON body on the
trailing-slash retry. -/
def w7Call : Nat → ToolInvoker.HttpOutcome := fun i =>
  if i = 0 then .resp 404 none "nf" "404 Client Error"
  else .resp 200 (some (.obj [("ok", .bool true)])) "ok-text" ""

/-- C9 witness build-config slice: nothing selected yet. -/
def w9Cfg : ToolRouter.RouterCfg := ⟨.cnone, [], ""⟩

/-- A `json.loads` oracle for router runs whose candidate never reaches the
string-parsing branch (any value works there; this one always raises). -/
def loadsNever : String → Except Unit Json := fun _ => .error ()

/-! Shared lemmas, followed by the claim theorems. -/

theorem pyOrS_empty_right (s : String) : pyOrS s "" = s := by
  unfold pyOrS; split <;> simp_all

theorem lexLe_total : ∀ a b : List Char, lexLe a b = true ∨ lexLe b a = true
  | [], _ => Or.inl rfl
  | _ :: _, [] => Or.inr rfl
  | a :: as, b :: bs => by
    simp only [lexLe]
    rcases Nat.lt_trichotomy a.toNat b.toNat with h | h | h
    · left; simp [h]
    · have h2 : ¬ a.toNat < b.toNat := by omega
      have h3 : ¬ b.toNat < a.toNat := by omega
      simpa [h2, h3] using lexLe_total as bs
    · right; simp [h, Nat.lt_asymm h]

theorem lexLe_trans : ∀ a b c : List Char, lexLe a b = true → lexLe b c = true → lexLe a c = true
  | [], _, _, _, _ => rfl
  | _ :: _, [], _, h1, _ => by simp [lexLe] at h1
  | _ :: _, _ :: _, [], _, h2 => by simp [lexLe] at h2
  | a :: as, b :: bs, c :: cs, h1, h2 => by
    simp only [lexLe] at h1 h2 ⊢
    by_cases hab : a.toNat < b.toNat
    · by_cases hbc : b.toNat < c.toNat
      · simp [show a.toNat < c.toNat by omega]
      · by_cases hcb : c.toNat < b.toNat
        · simp [hbc, hcb] at h2
        · simp [show a.toNat < c.toNat by omega]
    · by_cases hba : b.toNat < a.toNat
      · simp [hab, hba] at h1
      · simp [hab, hba] at h1
        by_cases hbc : b.toNat < c.toNat
        · simp [show a.toNat < c.toNat by omega]
        · by_cases hcb : c.toNat < b.toNat
          · simp [hbc, hcb] at h2
          · simp [hbc, hcb] at h2
            have hac : ¬ a.toNat < c.toNat := by omega
            have hca : ¬ c.toNat < a.toNat := by omega
            simp [hac, hca]
            exact lexLe_trans as bs cs h1 h2

theorem getLast?_mem_of_eq : ∀ {α : Type} (l : List α) (a : α), l.getLast? = some a → a ∈ l := by
  intro α l a h
  induction l with
  | nil => simp at h
  | cons x xs ih =>
    cases xs with
    | nil => simp [List.getLast?] at h; simp [h]
    | cons y ys =>
      rw [List.getLast?_cons_cons] at h
      exact List.mem_cons_of_mem _ (ih h)

theorem sdictLookup_mem {m : List (String × String)} {k v : String}
    (h : sdictLookup m k = some v) : (k, v) ∈ m := by
  unfold sdictLookup at h
  rw [Option.map_eq_some'] at h
  obtain ⟨kv, hlast, hv⟩ := h
  have hmem := getLast?_mem_of_eq _ _ hlast
  have hk := List.of_mem_filter hmem
  have hm := List.mem_of_mem_filter hmem
  obtain ⟨k1, v1⟩ := kv
  simp at hk hv
  subst hk
  subst hv
  exact hm

theorem item_to_pair_fields {item : Json} {p : String × String}
    (h : CoEModelPicker.item_to_pair item = some p) : p.1 ≠ "" ∧ p.2 ≠ "" := by
  cases item <;> simp [CoEModelPicker.item_to_pair] at h
  case obj kvs =>
    obtain ⟨-, ⟨hid, hname⟩, heq⟩ := h
    subst heq
    exact ⟨hname, hid⟩

theorem dictKeys_ne_nil {ps : List (String × String)} (h : ps ≠ []) : dictKeys ps ≠ [] := by
  cases ps with
  | nil => exact absurd rfl h
  | cons a l => simp [dictKeys, dedupFuel]

theorem pyOrJ_obj_empty (kvs : List (String × Json)) : pyOrJ (.obj kvs) (.obj []) = .obj kvs := by
  cases kvs <;> simp [pyOrJ, pyTruthy]

theorem pyOrJ_str_empty (s : String) : pyOrJ (.str s) (.str "") = .str s := by
  by_cases h : s = "" <;> simp [pyOrJ, pyTruthy, h]

theorem pyOrJ_arr_cons (x : Json) (xs : List Json) (d : Json) :
    pyOrJ (.arr (x :: xs)) d = .arr (x :: xs) := by
  simp [pyOrJ, pyTruthy]

theorem pyOrJ_arr_nil (d : Json) : pyOrJ (.arr []) d = d := by
  simp [pyOrJ, pyTruthy]

theorem pyOrJ_null (d : Json) : pyOrJ .null d = d := rfl

instance : IsTotal (String × String) CoEModelPicker.keyLe :=
  ⟨fun x y => lexLe_total _ _⟩

instance : IsTrans (String × String) CoEModelPicker.keyLe :=
  ⟨fun _ _ _ h1 h2 => lexLe_trans _ _ _ h1 h2⟩

theorem chat_payload_model_get :
    ∀ (m : List (String × String)) (inp : CoEModelPicker.ChatInputs) (tools : List Json),
      CoEModelPicker.pyGetAttr (CoEModelPicker.chat_payload m inp tools) "model" =
        .ok (.str (CoEModelPicker.chat_model_field m inp.model_name)) := by
  intro m inp tools
  unfold CoEModelPicker.chat_payload CoEModelPicker.pyGetAttr
  by_cases h1 : inp.enable_tools = true ∧ (!tools.isEmpty) = true
  · by_cases h2 : inp.tool_choice_auto = true <;>
      simp [h1, h2, dictGet, dictLookup, List.filter]
  · simp only [if_neg h1]
    simp [dictGet, dictLookup, List.filter]

/-- C1: the claim's "no duplicate names" conjunct fails, and an allowed-owner
item with an empty `id` is omitted: on `c1Payload` (three items all owned by
`openai`) the code returns the two pairs `("x","a"), ("x","b")` — the display
name `"x"` repeats, and the third item never appears. -/
theorem C1_counterexample :
    CoEModelPicker.fetch_pairs c1Payload = .ok [("x", "a"), ("x", "b")] ∧
    ¬ (([("x", "a"), ("x", "b")] : List (String × String)).map Prod.fst).Nodup ∧
    c1Items.countP owner_allowed = 3 ∧
    ([("x", "a"), ("x", "b")] : List (String × String)).length = 2 :=
  ⟨rfl, by decide, by decide, rfl⟩

/-- C1 (amended): for every discovery payload whose `data` extraction
succeeds, `_fetch_models` returns exactly the `(name, id)` pairs of the dict
items whose trimmed, lowercased `owned_by` is in the allow-list and whose
trimmed `id` and name (defaulting to the id) are non-empty — as a
permutation of that filtered sequence, sorted case-insensitively ascending
by name; duplicate names may remain. -/
theorem C1_fetch_pairs_filter_sort :
    ∀ (payload : Json) (items : List Json),
      CoEModelPicker.discovery_items payload = .ok items →
      ∃ pairs, CoEModelPicker.fetch_pairs payload = .ok pairs ∧
        pairs.Perm (items.filterMap CoEModelPicker.item_to_pair) ∧
        pairs.Sorted CoEModelPicker.keyLe ∧
        ∀ p ∈ pairs, p.1 ≠ "" ∧ p.2 ≠ "" := by
  intro payload items h
  have heq : CoEModelPicker.fetch_pairs payload
      = .ok (List.insertionSort CoEModelPicker.keyLe
          (items.filterMap CoEModelPicker.item_to_pair)) := by
    unfold CoEModelPicker.fetch_pairs
    rw [h]
    rfl
  refine ⟨_, heq, List.perm_insertionSort _ _, List.sorted_insertionSort _ _, ?_⟩
  intro p hp
  have hp2 := (List.perm_insertionSort CoEModelPicker.keyLe _).mem_iff.mp hp
  rw [List.mem_filterMap] at hp2
  obtain ⟨a, -, ha⟩ := hp2
  exact item_to_pair_fields ha

/-- C1 witness: the characterization evaluated on a payload with mixed
owners, whitespace in `owned_by`, and a missing `name`. -/
theorem C1_fetch_pairs_witness :
    ∃ pairs, CoEModelPicker.fetch_pairs w1Payload = .ok pairs ∧
      pairs.Perm (w1Items.filterMap CoEModelPicker.item_to_pair) ∧
      pairs.Sorted CoEModelPicker.keyLe ∧
      ∀ p ∈ pairs, p.1 ≠ "" ∧ p.2 ≠ "" :=
  C1_fetch_pairs_filter_sort w1Payload w1Items rfl

/-- C2: the retry is not limited to transport-level failures.  On the
counterexample oracle the discovery GET fails with HTTP 500 — raised as
`HTTPError`, a `URLError` subclass, hence caught — and a second request is
issued; and the POST, failing with a genuine transport error on a base URL
that host substitution leaves unchanged, is not retried at all. -/
theorem C2_counterexample :
    ((CoEModelPicker.fetch_models c2NetGet "http://host.docker.internal:8000").2 =
       ["http://host.docker.internal:8000/v1/models", "http://172.17.0.1:8000/v1/models"] ∧
     c2NetGet "http://host.docker.internal:8000/v1/models" = .error (.httpError 500)) ∧
    ((CoEModelPicker.call_chat c2NetPost [] freshState c2Inp).2.2.length = 1 ∧
     (CoEModelPicker.call_chat c2NetPost [] freshState c2Inp).1 = .error .osError) :=
  ⟨⟨by decide, rfl⟩, ⟨by decide, rfl⟩⟩

/-- C2 (amended): the discovery GET retries exactly once against the
host-substituted URL on any exception its handler catches (`URLError` —
including `HTTPError`, i.e. HTTP error statuses — `OSError`, `gaierror`),
and surfaces the retry's failure; uncaught exceptions and successes issue a
single request.  The invocation POST behaves the same except that the retry
is skipped when host substitution leaves the base unchanged. -/
theorem C2_retry_on_caught :
    (∀ (netGet : String → Except PyErr Json) (base : String) (p : Json),
       netGet (base ++ "/v1/models") = .ok p →
       (CoEModelPicker.fetch_models netGet base).2 = [base ++ "/v1/models"]) ∧
    (∀ netGet base e,
       netGet (base ++ "/v1/models") = .error e →
       caughtByNetHandler e = true →
       (CoEModelPicker.fetch_models netGet base).2 =
         [base ++ "/v1/models", CoEModelPicker.linux_fallback base ++ "/v1/models"] ∧
       (∀ e2, netGet (CoEModelPicker.linux_fallback base ++ "/v1/models") = .error e2 →
          (CoEModelPicker.fetch_models netGet base).1 = .error e2)) ∧
    (∀ netGet base e,
       netGet (base ++ "/v1/models") = .error e →
       caughtByNetHandler e = false →
       CoEModelPicker.fetch_models netGet base = (.error e, [base ++ "/v1/models"])) ∧
    (∀ (net : String → Json → Except PyErr Json) tools st inp e,
       st.last_text = none →
       net (CoEModelPicker.chat_url inp)
         (CoEModelPicker.chat_payload st.name_to_id inp tools) = .error e →
       caughtByNetHandler e = true →
       CoEModelPicker.chat_base inp ≠ CoEModelPicker.linux_fallback (CoEModelPicker.chat_base inp) →
       ((CoEModelPicker.call_chat net tools st inp).2.2 =
          [(CoEModelPicker.chat_url inp, CoEModelPicker.chat_payload st.name_to_id inp tools),
           (CoEModelPicker.linux_fallback (CoEModelPicker.chat_base inp) ++ "/v1/chat/completions",
            CoEModelPicker.chat_payload st.name_to_id inp tools)] ∧
        (∀ e2, net (CoEModelPicker.linux_fallback (CoEModelPicker.chat_base inp) ++ "/v1/chat/completions")
                 (CoEModelPicker.chat_payload st.name_to_id inp tools) = .error e2 →
           (CoEModelPicker.call_chat net tools st inp).1 = .error e2))) ∧
    (∀ net tools st inp e,
       st.last_text = none →
       net (CoEModelPicker.chat_url inp)
         (CoEModelPicker.chat_payload st.name_to_id inp tools) = .error e →
       caughtByNetHandler e = true →
       CoEModelPicker.chat_base inp = CoEModelPicker.linux_fallback (CoEModelPicker.chat_base inp) →
       CoEModelPicker.call_chat net tools st inp =
         (.error e, st,
          [(CoEModelPicker.chat_url inp, CoEModelPicker.chat_payload st.name_to_id inp tools)])) ∧
    (∀ net tools st inp e,
       st.last_text = none →
       net (CoEModelPicker.chat_url inp)
         (CoEModelPicker.chat_payload st.name_to_id inp tools) = .error e →
       caughtByNetHandler e = false →
       CoEModelPicker.call_chat net tools st inp =
         (.error e, st,
          [(CoEModelPicker.chat_url inp, CoEModelPicker.chat_payload st.name_to_id inp tools)])) := by
  refine ⟨?_, ?_, ?_, ?_, ?_, ?_⟩
  · intro netGet base p h
    unfold CoEModelPicker.fetch_models
    simp [h]
  · intro netGet base e h hc
    constructor
    · unfold CoEModelPicker.fetch_models
      rcases h2 : netGet (CoEModelPicker.linux_fallback base ++ "/v1/models") with e2 | p2 <;>
        simp [h, hc, h2]
    · intro e2 h2
      unfold CoEModelPicker.fetch_models
      simp [h, hc, h2]
  · intro netGet base e h hc
    unfold CoEModelPicker.fetch_models
    simp [h, hc]
  · intro net tools st inp e hnone h hc hne
    constructor
    · unfold CoEModelPicker.call_chat
      simp only [hnone]
      rcases h2 : net (CoEModelPicker.linux_fallback (CoEModelPicker.chat_base inp) ++ "/v1/chat/completions")
          (CoEModelPicker.chat_payload st.name_to_id inp tools) with e2 | p2 <;>
        simp [h, hc, hne, h2]
    · intro e2 h2
      unfold CoEModelPicker.call_chat
      simp only [hnone]
      simp [h, hc, hne, h2]
  · intro net tools st inp e hnone h hc heqb
    have hnot : (CoEModelPicker.chat_base inp ≠
        CoEModelPicker.linux_fallback (CoEModelPicker.chat_base inp)) = False :=
      eq_false (fun hne => hne heqb)
    unfold CoEModelPicker.call_chat
    simp only [hnone]
    simp [h, hc, hnot]
  · intro net tools st inp e hnone h hc
    unfold CoEModelPicker.call_chat
    simp only [hnone]
    simp [h, hc]

/-- C2 witness: a transport `URLError` on the primary discovery GET leads to
exactly one retry against the (here unchanged) substituted URL. -/
theorem C2_retry_witness :
    (CoEModelPicker.fetch_models (fun _ => .error .urlError) "http://h").2 =
      ["http://h/v1/models", CoEModelPicker.linux_fallback "http://h" ++ "/v1/models"] :=
  (C2_retry_on_caught.2.1 (fun _ => .error .urlError) "http://h" .urlError rfl rfl).1

/-- C3: once `_call_chat` has produced a text, the instance cache holds it;
every later call — with any oracle, tools or inputs — returns the identical
string and issues no network request, and the first call issued exactly one
POST (or two when the host-substitution fallback triggered). -/
theorem C3_cached_invocation :
    ∀ (net : String → Json → Except PyErr Json) tools st inp t st' tr,
      st.last_text = none →
      CoEModelPicker.call_chat net tools st inp = (.ok t, st', tr) →
      st'.last_text = some t ∧ (tr.length = 1 ∨ tr.length = 2) ∧
      ∀ (net2 : String → Json → Except PyErr Json) tools2 inp2,
        CoEModelPicker.call_chat net2 tools2 st' inp2 = (.ok t, st', []) := by
  intro net tools st inp t st' tr hnone heq
  have hmain : st'.last_text = some t ∧ (tr.length = 1 ∨ tr.length = 2) := by
    unfold CoEModelPicker.call_chat at heq
    simp only [hnone] at heq
    split at heq
    · rename_i resp hresp
      simp only [Prod.mk.injEq, Except.ok.injEq] at heq
      obtain ⟨ht, hst, htr⟩ := heq
      subst ht
      rw [← hst, ← htr]
      exact ⟨rfl, Or.inl rfl⟩
    · rename_i e hresp
      split at heq
      · split at heq
        · split at heq
          · rename_i resp2 hresp2
            simp only [Prod.mk.injEq, Except.ok.injEq] at heq
            obtain ⟨ht, hst, htr⟩ := heq
            subst ht
            rw [← hst, ← htr]
            exact ⟨rfl, Or.inr rfl⟩
          · simp at heq
        · simp at heq
      · simp at heq
  refine ⟨hmain.1, hmain.2, ?_⟩
  intro net2 tools2 inp2
  unfold CoEModelPicker.call_chat
  simp [hmain.1]

/-- C3 witness: after a successful first call cached `"hi"`, a repeat call
with a failing oracle still answers `"hi"`, unchanged state, no requests. -/
theorem C3_cached_witness :
    CoEModelPicker.call_chat (fun _ _ => .error .osError) []
        (⟨[], false, some "hi"⟩ : CoEModelPicker.PickerState) w3Inp
      = (.ok "hi", (⟨[], false, some "hi"⟩ : CoEModelPicker.PickerState), []) :=
  (C3_cached_invocation w3Net [] freshState w3Inp "hi" ⟨[], false, some "hi"⟩
      [(CoEModelPicker.chat_url w3Inp, CoEModelPicker.chat_payload [] w3Inp [])]
      rfl rfl).2.2 (fun _ _ => .error .osError) [] w3Inp

/-- C4: when the refresh path runs and the discovery call raises or returns
no eligible pairs, the dropdown options become exactly the labels of the
hardcoded default list, which is non-empty; and after any refresh the
options are never empty. -/
theorem C4_fallback_options :
    (∀ fetch st cfg fu,
      CoEModelPicker.shouldRefresh st cfg fu = true →
      ((∃ e, fetch (CoEModelPicker.effective_base cfg fu) = .error e) ∨
        fetch (CoEModelPicker.effective_base cfg fu) = .ok []) →
      (CoEModelPicker.update_build_config fetch st cfg fu).1.model_options =
        CoEModelPicker.fallback_pairs.map Prod.fst ∧
      CoEModelPicker.fallback_pairs.map Prod.fst ≠ []) ∧
    (∀ fetch st cfg fu,
      CoEModelPicker.shouldRefresh st cfg fu = true →
      (CoEModelPicker.update_build_config fetch st cfg fu).1.model_options ≠ []) := by
  constructor
  · intro fetch st cfg fu hsr hfail
    refine ⟨?_, by decide⟩
    unfold CoEModelPicker.update_build_config
    rw [hsr]
    rcases hfail with ⟨e, he⟩ | he <;> simp [he]
  · intro fetch st cfg fu hsr
    unfold CoEModelPicker.update_build_config
    rw [hsr]
    simp only
    rcases hres : fetch (CoEModelPicker.effective_base cfg fu) with e | pairs
    · simp [hres]
      decide
    · rcases hp : pairs with - | ⟨a, l⟩
      · simp [hres, hp]
        decide
      · simp [hres, hp]
        exact dictKeys_ne_nil (List.cons_ne_nil a l)

/-- C4 witness: a failing discovery call on a fresh instance leaves the four
default labels in the dropdown. -/
theorem C4_fallback_witness :
    (CoEModelPicker.update_build_config (fun _ => .error .urlError) freshState w4Cfg
        .noField).1.model_options
      = CoEModelPicker.fallback_pairs.map Prod.fst ∧
    CoEModelPicker.fallback_pairs.map Prod.fst ≠ [] :=
  C4_fallback_options.1 (fun _ => .error .urlError) freshState w4Cfg .noField (by decide)
    (Or.inl ⟨.urlError, rfl⟩)

/-- C5: in the invocation request body, `model` is the identifier the cached
map holds for the selected label (the map's identifiers are never empty, an
invariant of both sources of the cache), and for an absent label it is the
first identifier of the hardcoded default list, `"gpt-4o-mini"`. -/
theorem C5_payload_model :
    ∀ (m : List (String × String)) (inp : CoEModelPicker.ChatInputs) (tools : List Json),
      (∀ pr ∈ m, pr.2 ≠ "") →
      (∀ v, sdictLookup m inp.model_name = some v →
        CoEModelPicker.pyGetAttr (CoEModelPicker.chat_payload m inp tools) "model" = .ok (.str v)) ∧
      (sdictLookup m inp.model_name = none →
        CoEModelPicker.pyGetAttr (CoEModelPicker.chat_payload m inp tools) "model" =
          .ok (.str "gpt-4o-mini") ∧
        (CoEModelPicker.fallback_pairs.headD ("", "")).2 = "gpt-4o-mini") := by
  intro m inp tools hvals
  constructor
  · intro v hv
    rw [chat_payload_model_get]
    have hvne : v ≠ "" := hvals _ (sdictLookup_mem hv)
    unfold CoEModelPicker.chat_model_field
    rw [pyOrS_empty_right]
    simp [sdictGet, hv, hvne, pyOrS]
  · intro hnone
    refine ⟨?_, by decide⟩
    rw [chat_payload_model_get]
    unfold CoEModelPicker.chat_model_field
    rw [pyOrS_empty_right]
    simp [sdictGet, hnone, CoEModelPicker.fallback_pairs, pyOrS]

/-- C5 witness: a one-entry cache resolves its label to the mapped id. -/
theorem C5_payload_model_witness :
    CoEModelPicker.pyGetAttr
        (CoEModelPicker.chat_payload [("A", "idA")] w5Inp []) "model" = .ok (.str "idA") :=
  (C5_payload_model [("A", "idA")] w5Inp [] (by decide)).1 "idA" rfl

theorem spec_message_fields_inv :
    ∀ (resp : Json) (mkvs : List (String × Json)),
      spec_message_fields resp = some mkvs →
      ∃ kvs ckvs rest,
        resp = .obj kvs ∧
        dictLookup kvs "choices" = some (.arr (.obj ckvs :: rest)) ∧
        dictLookup ckvs "message" = some (.obj mkvs) := by
  intro resp mkvs h
  cases resp with
  | null => exact absurd h (by simp [spec_message_fields])
  | bool b => exact absurd h (by simp [spec_message_fields])
  | num n => exact absurd h (by simp [spec_message_fields])
  | str s => exact absurd h (by simp [spec_message_fields])
  | arr xs => exact absurd h (by simp [spec_message_fields])
  | obj kvs =>
    simp only [spec_message_fields] at h
    rcases hc : dictLookup kvs "choices" with - | cj <;> rw [hc] at h
    · simp at h
    · cases cj with
      | null => simp at h
      | bool b => simp at h
      | num n => simp at h
      | str s => simp at h
      | obj o => simp at h
      | arr elems =>
        cases elems with
        | nil => simp at h
        | cons c0 rest =>
          cases c0 with
          | null => simp at h
          | bool b => simp at h
          | num n => simp at h
          | str s => simp at h
          | arr ys => simp at h
          | obj ckvs =>
            have h2 : (match dictLookup ckvs "message" with
                | some (Json.obj m) => some m
                | _ => none) = some mkvs := h
            rcases hmsg : dictLookup ckvs "message" with - | mj <;> rw [hmsg] at h2
            · simp at h2
            · cases mj with
              | null => simp at h2
              | bool b => simp at h2
              | num n => simp at h2
              | str s => simp at h2
              | arr ys => simp at h2
              | obj mkvs2 =>
                simp at h2
                subst h2
                exact ⟨kvs, ckvs, rest, rfl, hc, hmsg⟩

/-- C6: the `content` key being absent does not trigger the raw-JSON
fallback — the code returns the empty string instead (the spec path is
absent on `c6Resp`, yet the output is `""`, not the truncated dump). -/
theorem C6_counterexample :
    spec_content_path c6Resp = none ∧
    CoEModelPicker.chat_text c6Resp = "" ∧
    CoEModelPicker.chat_text c6Resp ≠ pySlice (dumpsC c6Resp) 2000 :=
  ⟨rfl, rfl, by decide⟩

/-- C6 (amended): when `choices[0].message.content` resolves to a string it
is returned as-is; a missing (or `null`) `content` under an existing message
object yields the empty string; the truncated raw-JSON fallback applies when
extraction raises, e.g. when `choices` is absent or empty.  In each case the
parse stage returns a string rather than raising. -/
theorem C6_content_extraction :
    (∀ (resp : Json) (s : String),
      spec_content_path resp = some (.str s) →
      CoEModelPicker.chat_text resp = s) ∧
    (∀ (resp : Json) (mkvs : List (String × Json)),
      spec_message_fields resp = some mkvs →
      (dictLookup mkvs "content" = none ∨ dictLookup mkvs "content" = some .null) →
      CoEModelPicker.chat_text resp = "") ∧
    (∀ (resp : Json) (kvs : List (String × Json)),
      resp = .obj kvs →
      (dictLookup kvs "choices" = none ∨ dictLookup kvs "choices" = some (.arr [])) →
      CoEModelPicker.chat_text resp = pySlice (dumpsC resp) 2000) := by
  refine ⟨?_, ?_, ?_⟩
  · intro resp s h
    unfold spec_content_path at h
    rcases hm : spec_message_fields resp with - | mkvs
    · rw [hm] at h
      exact absurd h (by simp)
    · rw [hm] at h
      simp only [Option.some_bind] at h
      obtain ⟨kvs, ckvs, rest, hresp, hchoices, hmsg⟩ := spec_message_fields_inv resp mkvs hm
      subst hresp
      have hattempt : CoEModelPicker.chat_text_attempt (.obj kvs) = .ok s := by
        unfold CoEModelPicker.chat_text_attempt
        simp [CoEModelPicker.pyGetAttr, dictGet, hchoices, hmsg, h,
              pyOrJ_arr_cons, pyOrJ_obj_empty, pyOrJ_str_empty,
              CoEModelPicker.pySubscript0, pyStrJ]
      simp [CoEModelPicker.chat_text, hattempt]
  · intro resp mkvs hm hcontent
    obtain ⟨kvs, ckvs, rest, hresp, hchoices, hmsg⟩ := spec_message_fields_inv resp mkvs hm
    subst hresp
    have hattempt : CoEModelPicker.chat_text_attempt (.obj kvs) = .ok "" := by
      unfold CoEModelPicker.chat_text_attempt
      rcases hcontent with hc | hc <;>
        simp [CoEModelPicker.pyGetAttr, dictGet, hchoices, hmsg, hc,
              pyOrJ_arr_cons, pyOrJ_obj_empty, pyOrJ_null, pyOrJ_str_empty,
              CoEModelPicker.pySubscript0, pyStrJ]
    simp [CoEModelPicker.chat_text, hattempt]
  · intro resp kvs hresp hchoices
    subst hresp
    have hattempt : CoEModelPicker.chat_text_attempt (.obj kvs) = .error .indexError := by
      unfold CoEModelPicker.chat_text_attempt
      rcases hchoices with hc | hc <;>
        simp [CoEModelPicker.pyGetAttr, dictGet, hc,
              pyOrJ_arr_nil, pyOrJ_null, CoEModelPicker.pySubscript0]
    simp [CoEModelPicker.chat_text, hattempt]

/-- C6 witness: a full response path returns the content string. -/
theorem C6_content_witness : CoEModelPicker.chat_text w6Resp = "hello" :=
  C6_content_extraction.1 w6Resp "hello" rfl

/-- C7: an HTTP 404 on a URL that already ends with a slash is not retried
at all — the structured `http_error` payload is returned after the single
call. -/
theorem C7_counterexample :
    c7Call 0 = .resp 404 none "nf" "404 Client Error" ∧
    ToolInvoker.invoke_call c7Call "POST" "http://h/tools/x/" "t" =
      (ToolInvoker.httpErrorText "POST" "http://h/tools/x/" "t" 404 "404 Client Error" "nf",
       ["http://h/tools/x/"]) :=
  ⟨rfl, rfl⟩

/-- C7 (amended): on HTTP 404, when the URL does not already end with `"/"`,
exactly one retry is attempted at the slash-appended URL and that retry's
outcome — success body or error description — is the output, with no third
call; any other HTTP error (and a 404 on an already-slashed URL) yields the
structured error payload with no retry. -/
theorem C7_404_retry :
    ∀ (call : Nat → ToolInvoker.HttpOutcome) (method url tool : String)
      (status : Nat) (body : Option Json) (text es : String),
      call 0 = .resp status body text es →
      (status = 404 → pyEndsWith url "/" = false →
        (∀ status2 body2 text2 es2, call 1 = .resp status2 body2 text2 es2 →
          (status2 < 400 →
            ToolInvoker.invoke_call call method url tool =
              (ToolInvoker.successText method (url ++ "/") tool true body2 text2,
               [url, url ++ "/"])) ∧
          (¬ status2 < 400 →
            ToolInvoker.invoke_call call method url tool =
              (ToolInvoker.fallbackFailedText method url (url ++ "/") status es2,
               [url, url ++ "/"]))) ∧
        (∀ msg2, call 1 = .raised msg2 →
          ToolInvoker.invoke_call call method url tool =
            (ToolInvoker.fallbackFailedText method url (url ++ "/") status msg2,
             [url, url ++ "/"]))) ∧
      (¬ status < 400 → ¬ (status = 404 ∧ pyEndsWith url "/" = false) →
        ToolInvoker.invoke_call call method url tool =
          (ToolInvoker.httpErrorText method url tool status es text, [url])) := by
  intro call method url tool status body text es h0
  constructor
  · intro h404 hslash
    subst h404
    constructor
    · intro status2 body2 text2 es2 h1
      constructor
      · intro hlt
        unfold ToolInvoker.invoke_call
        simp [h0, h1, hslash, hlt]
      · intro hge
        unfold ToolInvoker.invoke_call
        simp [h0, h1, hslash, hge]
    · intro msg2 h1
      unfold ToolInvoker.invoke_call
      simp [h0, h1, hslash]
  · intro hge hnot
    unfold ToolInvoker.invoke_call
    have hcond : ¬ (status = 404 ∧ (!pyEndsWith url "/") = true) := by
      intro ⟨ha, hb⟩
      exact hnot ⟨ha, by simpa using hb⟩
    simp only [h0]
    rw [if_neg hge, if_neg hcond]

/-- C7 witness: 404 then success on the slash-appended URL; the retry's
body is the output and exactly two calls are made. -/
theorem C7_404_witness :
    ToolInvoker.invoke_call w7Call "POST" "http://h/tools/x" "t" =
      (ToolInvoker.successText "POST" "http://h/tools/x/" "t" true
        (some (.obj [("ok", .bool true)])) "ok-text",
       ["http://h/tools/x", "http://h/tools/x/"]) :=
  (((C7_404_retry w7Call "POST" "http://h/tools/x" "t" 404 none "nf" "404 Client Error"
      rfl).1 rfl (by decide)).1 200 (some (.obj [("ok", .bool true)])) "ok-text" ""
      rfl).1 (by decide)

/-- C8: the mount segment can be doubled — a path that already repeats
`/tools` is passed through verbatim, so the joined URL contains
`/tools/tools`. -/
theorem C8_counterexample :
    ToolInvoker.join_url "http://h" "/tools/tools/x" "/tools" = "http://h/tools/tools/x" ∧
    pyContains "http://h/tools/tools/x" "/tools/tools" = true :=
  ⟨by decide, by decide⟩

theorem startsWith_slash_of_tools {s : String} (h : pyStartsWith s "/tools/" = true) :
    pyStartsWith s "/" = true := by
  unfold pyStartsWith at h ⊢
  rw [List.isPrefixOf_iff_prefix] at h ⊢
  exact List.IsPrefix.trans (by decide) h

/-- C8 (amended): the two concrete join equations hold, and the `/tools`
prefix is never prepended to a path that already starts with it (doubling
can still arise from the base URL or from a path that itself repeats the
segment). -/
theorem C8_join_url :
    ToolInvoker.join_url "http://h/" "/sub" "/tools" = "http://h/tools/sub" ∧
    ToolInvoker.join_url "http://h" "/tools/sub" "/tools" = "http://h/tools/sub" ∧
    (∀ base path, pyStartsWith (pyStrip (pyOrS path "/")) "/tools/" = true →
      ToolInvoker.join_url base path "/tools" =
        rstripSlash (pyOrS base "") ++ pyStrip (pyOrS path "/")) := by
  refine ⟨by decide, by decide, ?_⟩
  intro base path h
  unfold ToolInvoker.join_url
  have h0 := startsWith_slash_of_tools h
  simp [h0, h]

/-- C8 witness: the no-double-prefix clause evaluated at a prefixed path. -/
theorem C8_join_url_witness :
    ToolInvoker.join_url "http://h" "/tools/abc" "/tools" =
      rstripSlash (pyOrS "http://h" "") ++ pyStrip (pyOrS "/tools/abc" "/") :=
  C8_join_url.2.2 "http://h" "/tools/abc" (by decide)

/-- C9: an extracted object with no keys does not leave the dropdown with
its (empty) key list — the fixed fallback keys are used instead. -/
theorem C9_counterexample :
    (ToolRouter.update_build_config loadsNever ⟨.cnone, [], ""⟩ (.cdict [])
        (some "tool_message")).key_options = ToolRouter.fallback_keys ∧
    ToolRouter.fallback_keys ≠ (([] : List (String × Json)).map Prod.fst) :=
  ⟨rfl, by decide⟩

/-- C9 (amended): for a dict candidate carrying neither a usable `text`
string nor a `data` dict, the dropdown options are the object's keys when it
has any (else the fallback list), and the selected key is kept when still
valid, otherwise reset to `"name"` when present, else to the first key. -/
theorem C9_router_keys :
    ∀ (loads : String → Except Unit Json) (cfg : ToolRouter.RouterCfg)
      (kvs : List (String × Json)),
      dictGet kvs "text" = .null →
      dictGet kvs "data" = .null →
      (kvs ≠ [] →
        (ToolRouter.update_build_config loads cfg (.cdict kvs) (some "tool_message")).key_options =
          kvs.map Prod.fst ∧
        (ToolRouter.update_build_config loads cfg (.cdict kvs) (some "tool_message")).key_value =
          (if cfg.key_value = "" ∨ ¬ (kvs.map Prod.fst).contains cfg.key_value then
             (if (kvs.map Prod.fst).contains "name" then "name"
              else (kvs.map Prod.fst).headD "")
           else cfg.key_value)) ∧
      (kvs = [] →
        (ToolRouter.update_build_config loads cfg (.cdict kvs) (some "tool_message")).key_options =
          ToolRouter.fallback_keys) := by
  intro loads cfg kvs htxt hdata
  have hkeys : ToolRouter.extract_json_keys loads (.cdict kvs) = kvs.map Prod.fst := by
    simp only [ToolRouter.extract_json_keys]
    rw [htxt, hdata]
  constructor
  · intro hne
    have hisEmpty : (kvs.map Prod.fst).isEmpty = false := by
      rcases kvs with - | ⟨kv, rest⟩
      · exact absurd rfl hne
      · rfl
    constructor <;>
      (simp only [ToolRouter.update_build_config, if_true]; rw [hkeys, hisEmpty]; simp)
  · intro hnil
    subst hnil
    simp only [ToolRouter.update_build_config, if_true]
    rw [hkeys]
    simp [ToolRouter.fallback_keys]

/-- C9 witness: the two objects from the claim give default keys `"name"`
and `"url_path"` respectively. -/
theorem C9_router_keys_witness :
    (ToolRouter.update_build_config loadsNever w9Cfg
        (.cdict [("name", .str "a"), ("url_path", .str "b")]) (some "tool_message")).key_options
      = ["name", "url_path"] ∧
    (ToolRouter.update_build_config loadsNever w9Cfg
        (.cdict [("name", .str "a"), ("url_path", .str "b")]) (some "tool_message")).key_value
      = "name" ∧
    (ToolRouter.update_build_config loadsNever w9Cfg
        (.cdict [("url_path", .str "b")]) (some "tool_message")).key_value = "url_path" := by
  have h1 := (C9_router_keys loadsNever w9Cfg [("name", .str "a"), ("url_path", .str "b")]
      rfl rfl).1 (by simp)
  have h2 := (C9_router_keys loadsNever w9Cfg [("url_path", .str "b")] rfl rfl).1 (by simp)
  refine ⟨h1.1, ?_, ?_⟩
  · rw [h1.2]
    decide
  · rw [h2.2]
    decide

/-- C10: `get_model_id` returns the identifier cached for the stripped name
and the empty string when absent — without the default-list fallback the
invocation path applies, so for an unknown name the `model_id` output
(`""`) differs from the payload's `model` field (`"gpt-4o-mini"`). -/
theorem C10_get_model_id :
    ∀ (st : CoEModelPicker.PickerState) (name : String),
      (∀ v, sdictLookup st.name_to_id (pyStrip name) = some v →
        CoEModelPicker.get_model_id st name = v) ∧
      (sdictLookup st.name_to_id (pyStrip name) = none →
        CoEModelPicker.get_model_id st name = "" ∧
        CoEModelPicker.chat_model_field st.name_to_id (pyStrip name) = "gpt-4o-mini" ∧
        ("" : String) ≠ "gpt-4o-mini") := by
  intro st name
  constructor
  · intro v hv
    unfold CoEModelPicker.get_model_id
    simp [pyOrS_empty_right, sdictGet, hv]
  · intro hnone
    refine ⟨?_, ?_, by decide⟩
    · unfold CoEModelPicker.get_model_id
      simp [pyOrS_empty_right, sdictGet, hnone]
    · unfold CoEModelPicker.chat_model_field
      rw [pyOrS_empty_right]
      simp [sdictGet, hnone, CoEModelPicker.fallback_pairs, pyOrS]

/-- C10 witness: with an empty cache, the `model_id` output is empty while
the invocation payload would carry the default identifier. -/
theorem C10_get_model_id_witness :
    CoEModelPicker.get_model_id freshState "unknown" = "" ∧
    CoEModelPicker.chat_model_field freshState.name_to_id (pyStrip "unknown") = "gpt-4o-mini" ∧
    ("" : String) ≠ "gpt-4o-mini" :=
  (C10_get_model_id freshState "unknown").2 rfl
